import Mathlib

/-!
Shallow embedding of the authentication layer and tool handlers of the
`notion-mcp-server` repository (`server.py`, `generate_client_token.py`).

Modelling conventions:
* RSA key material is abstracted by a `Nat` identity: a key pair shares one
  identity, `jwt.encode` with private key `k` yields a token whose signature
  is bound to `k`, and `jwt.decode` with public key `k'` accepts the
  signature iff `k = k'`.  This captures the guarantee "the signature is
  verifiable exactly by the holder of the corresponding verification key"
  without modelling RSA arithmetic.
* Wall-clock time is an explicit `Nat` parameter `now` (seconds), matching
  `int(time.time())` in the source.
* The PyJWT `jwt.decode(token, key, algorithms=["RS256"], audience=...)`
  call performs, with zero leeway: signature verification, expiry check
  (expired iff `exp <= now`), and audience equality check.  These library
  semantics are embedded in `jwt_decode` below.
* Python exceptions become `Except` values; the distinct exception classes
  that the tool handlers can raise are the constructors of `PyExc`.
-/

namespace NotionMCP

/-- The JWT claim set built by `generate_token` (server.py 62-73) and
`generate_client_token` (generate_client_token.py 54-65):
`{sub, iss, aud, iat, exp}` plus an optional space-joined `scope` claim
added only when the scope list is non-empty. -/
structure Claims where
  sub : String
  iss : String
  aud : String
  iat : Nat
  exp : Nat
  scope : Option String
deriving Repr, DecidableEq

/-- A signed JWT: the claim payload together with the identity of the key
pair whose private half produced the signature (`jwt.encode(payload,
rsa_private_key, algorithm="RS256")`). -/
structure SignedToken where
  payload : Claims
  sigKey : Nat
deriving Repr, DecidableEq

/-- Python `" ".join(scopes)` (server.py 73, generate_client_token.py 65). -/
def joinScopes (scopes : List String) : String :=
  String.intercalate " " scopes

/-- `generate_token(subject, scopes, expiry_seconds)` from server.py 47-77.
Raises `ValueError` when no private signing key is loaded (line 59-60);
otherwise builds the payload with fixed issuer `"notion-mcp-auth"` and
audience `"notion-mcp"`, `iat = now`, `exp = now + expiry_seconds`, adds the
space-joined `scope` claim when `scopes` is truthy (non-empty), and signs
with the private key. -/
def generate_token (rsa_private_key : Option Nat) (subject : String)
    (scopes : List String) (expiry_seconds : Nat) (now : Nat) :
    Except String SignedToken :=
  match rsa_private_key with
  | none => .error "RSA_PRIVATE_KEY environment variable is required for token generation"
  | some sk =>
    .ok { payload :=
            { sub := subject
              iss := "notion-mcp-auth"
              aud := "notion-mcp"
              iat := now
              exp := now + expiry_seconds
              scope := if scopes.isEmpty then none else some (joinScopes scopes) }
          sigKey := sk }

/-- Failure outcomes of the PyJWT decode call (subclasses of
`jwt.PyJWTError`); `validate_token` collapses them all to `None`. -/
inductive VerifyError where
  | invalidSignature
  | expiredSignature
  | invalidAudience
deriving Repr, DecidableEq

/-- `jwt.decode(token, public_key, algorithms=["RS256"], audience="notion-mcp")`
(generate_client_token.py 82-87), i.e. the PyJWT library semantics with zero
leeway: the RS256 signature must verify under `public_key`; the `exp` claim
is rejected when `exp <= now` (`ExpiredSignatureError`); the `aud` claim must
equal the expected `audience` (`InvalidAudienceError`).  The `iss` claim is
decoded but never validated (no `issuer=` argument is passed). -/
def jwt_decode (token : SignedToken) (public_key : Nat) (audience : String)
    (now : Nat) : Except VerifyError Claims :=
  if token.sigKey ≠ public_key then .error .invalidSignature
  else if token.payload.exp ≤ now then .error .expiredSignature
  else if token.payload.aud ≠ audience then .error .invalidAudience
  else .ok token.payload

/-- `validate_token(token)` from generate_client_token.py 71-91: runs
`jwt_decode` with the loaded public key and expected audience `"notion-mcp"`;
returns the decoded payload on success and `None` on any `jwt.PyJWTError`
(the cause is only printed). -/
def validate_token (rsa_public_key : Nat) (token : SignedToken) (now : Nat) :
    Option Claims :=
  (jwt_decode token rsa_public_key "notion-mcp" now).toOption

/-- The process-wide immutable state established by the module-level code of
server.py once startup succeeds: decoded public key (always present),
optionally decoded private key, and the Notion API secret. -/
structure ServerState where
  rsa_public_key : Nat
  rsa_private_key : Option Nat
  notion_token : String
deriving Repr, DecidableEq

/-- Module-level startup of server.py (lines 22-87).  Environment values are
represented post-`base64.b64decode`: `pub`/`priv` are the decoded key
identities when the corresponding variable is set, `none` when absent.
`raise ValueError(...)` at lines 26-27 fires when `RSA_PUBLIC_KEY` is absent;
lines 83-85 fire when `NOTION_TOKEN` is absent; an absent `RSA_PRIVATE_KEY`
leaves `rsa_private_key = None` (lines 34-37) and startup proceeds. -/
def server_startup (pub priv : Option Nat) (notion : Option String) :
    Except String ServerState :=
  match pub with
  | none => .error "RSA_PUBLIC_KEY environment variable is required for authentication"
  | some pk =>
    match notion with
    | none => .error "NOTION_TOKEN environment variable is required"
    | some tok => .ok { rsa_public_key := pk, rsa_private_key := priv, notion_token := tok }

/-! ## Tool handlers

Each `@mcp.tool` coroutine is embedded as a pure function from its arguments
and the outcome of the remote-provider (Notion) call to the observable
behaviour: which arguments are forwarded to the provider, and whether the
handler returns normally or raises.  `ctx.info`/`ctx.error` logging has no
bearing on any claim and is omitted. -/

/-- Outcome of the awaited `notion.*` call inside a tool body:
success, a `notion_client.errors.APIResponseError`, or any other exception. -/
inductive ProviderOutcome where
  | ok
  | apiError (msg : String)
  | otherError (msg : String)
deriving Repr, DecidableEq

/-- The Python exception value a tool handler raises to its caller.
`exc` is the builtin generic `Exception`; `nameError` is the builtin
`NameError` raised when an undefined global name is evaluated. -/
inductive PyExc where
  | exc (msg : String)
  | nameError (undefinedName : String)
deriving Repr, DecidableEq

/-- `true` exactly for the generic builtin `Exception`. -/
def PyExc.isGenericException : PyExc → Bool
  | .exc _ => true
  | .nameError _ => false

/-- Python `s.replace("-", "")` on identifier arguments (server.py 106, 195,
229): removes every occurrence of the one-character substring `"-"`, leaving
all other characters in place. -/
def pyReplaceDash (s : String) : String :=
  ⟨s.data.filter (fun c => c ≠ '-')⟩

/-- Observable behaviour of `get_page(page_id)` (server.py 91-125). -/
structure GetPageBehavior where
  /-- `page_id=` argument of `notion.pages.retrieve` (line 109). -/
  retrieve_page_id : String
  /-- `block_id=` argument of `notion.blocks.children.list` (line 112). -/
  blocks_block_id : String
  /-- normal return, or the exception propagated to the caller. -/
  outcome : Except PyExc Unit
deriving Repr

/-- `get_page` (server.py 91-125).  The handler forwards
`clean_page_id = page_id.replace("-", "")` to both provider calls.  On
`APIResponseError` the handler executes
`raise NotionAPIError(f"Failed to retrieve page {page_id}: {e}") from e`
(line 122), but the name `NotionAPIError` is neither defined nor imported
anywhere in the module, so evaluating it raises
`NameError("name 'NotionAPIError' is not defined")`; that `NameError` is
raised inside the `except` suite, hence not caught by the sibling
`except Exception` clause, and propagates to the caller.  Symmetrically the
generic-exception handler (line 125) evaluates the undefined name
`NotionRequestError` and propagates a `NameError`. -/
def get_page (page_id : String) (provider : ProviderOutcome) : GetPageBehavior :=
  let clean_page_id := pyReplaceDash page_id
  { retrieve_page_id := clean_page_id
    blocks_block_id := clean_page_id
    outcome :=
      match provider with
      | .ok => .ok ()
      | .apiError _ => .error (.nameError "NotionAPIError")
      | .otherError _ => .error (.nameError "NotionRequestError") }

/-- Python `int(x)` applied to the client-supplied `page_size` argument,
together with the surrounding `try`/`except (ValueError, TypeError)` that
falls back to `10` (server.py 145-148 and 230-233).  `some n` is a value on
which `int()` succeeds with result `n`; `none` is a value on which it raises. -/
def convert_page_size (page_size : Option Int) : Int :=
  match page_size with
  | some n => n
  | none => 10

/-- The keyword arguments `search_pages` passes to `notion.search`
(server.py 151-163). -/
structure SearchParams where
  page_size : Int
  filter_property : String
  filter_value : String
  /-- the `query=` parameter; `none` when the key is never inserted. -/
  query : Option String
deriving Repr, DecidableEq

/-- Observable behaviour of `search_pages(query, page_size)` (server.py
129-176). -/
structure SearchPagesBehavior where
  search_params : SearchParams
  outcome : Except PyExc Unit
deriving Repr

/-- `search_pages` (server.py 129-176).  Clamps `page_size` with
`min(int(page_size), 100)`, always sends the object-type filter
`{"property": "object", "value": "page"}`, and inserts the `query` key only
when `query` is truthy (non-empty) and not the literal `"all"` (line 160).
Both `except` clauses raise the generic
`Exception(f"Failed to search pages: {e}")`. -/
def search_pages (query : String) (page_size : Option Int)
    (provider : ProviderOutcome) : SearchPagesBehavior :=
  let ps := min (convert_page_size page_size) 100
  { search_params :=
      { page_size := ps
        filter_property := "object"
        filter_value := "page"
        query := if query ≠ "" ∧ query ≠ "all" then some query else none }
    outcome :=
      match provider with
      | .ok => .ok ()
      | .apiError e => .error (.exc ("Failed to search pages: " ++ e))
      | .otherError e => .error (.exc ("Failed to search pages: " ++ e)) }

/-- Observable behaviour of `get_database(database_id)` (server.py 180-209). -/
structure GetDatabaseBehavior where
  /-- `database_id=` argument of `notion.databases.retrieve` (line 198). -/
  retrieve_database_id : String
  outcome : Except PyExc Unit
deriving Repr

/-- `get_database` (server.py 180-209).  Forwards
`clean_db_id = database_id.replace("-", "")`; both `except` clauses raise the
generic `Exception(f"Failed to retrieve database {database_id}: {e}")`
carrying the original (un-cleaned) `database_id` argument. -/
def get_database (database_id : String) (provider : ProviderOutcome) :
    GetDatabaseBehavior :=
  { retrieve_database_id := pyReplaceDash database_id
    outcome :=
      match provider with
      | .ok => .ok ()
      | .apiError e =>
          .error (.exc ("Failed to retrieve database " ++ database_id ++ ": " ++ e))
      | .otherError e =>
          .error (.exc ("Failed to retrieve database " ++ database_id ++ ": " ++ e)) }

/-- Observable behaviour of `query_database(database_id, page_size)`
(server.py 213-253). -/
structure QueryDatabaseBehavior where
  /-- `database_id=` argument of `notion.databases.query` (line 238). -/
  query_database_id : String
  /-- `page_size=` argument of `notion.databases.query` (line 239). -/
  query_page_size : Int
  outcome : Except PyExc Unit
deriving Repr

/-- `query_database` (server.py 213-253).  Forwards the hyphen-stripped
`database_id` and `min(int(page_size), 100)`; both `except` clauses raise the
generic `Exception(f"Failed to query database {database_id}: {e}")`. -/
def query_database (database_id : String) (page_size : Option Int)
    (provider : ProviderOutcome) : QueryDatabaseBehavior :=
  { query_database_id := pyReplaceDash database_id
    query_page_size := min (convert_page_size page_size) 100
    outcome :=
      match provider with
      | .ok => .ok ()
      | .apiError e =>
          .error (.exc ("Failed to query database " ++ database_id ++ ": " ++ e))
      | .otherError e =>
          .error (.exc ("Failed to query database " ++ database_id ++ ": " ++ e)) }

/-! ## Helper lemmas (shared by several claim theorems) -/

/-- A token whose signature verifies under `pk`, whose audience is the
expected `"notion-mcp"`, and whose expiry lies strictly in the future passes
`validate_token`, whatever its other claims hold. -/
theorem validate_token_accepts (pk : Nat) (token : SignedToken) (now : Nat)
    (hsig : token.sigKey = pk) (haud : token.payload.aud = "notion-mcp")
    (hexp : now < token.payload.exp) :
    validate_token pk token now = some token.payload := by
  have h : ¬ token.payload.exp ≤ now := by omega
  simp [validate_token, jwt_decode, hsig, haud, h, Except.toOption]

/-! ## Claim theorems -/

/-- C1: for every valid input set (non-empty subject, scope list, positive
ttl), immediately validating a token produced by `generate_token` with the
loaded key pair succeeds and returns exactly the issued claims; the `scope`
claim is the space-joined scope list (when non-empty) and
`exp - iat = ttl`. -/
theorem issue_then_validate_roundtrip (k : Nat) (subject : String)
    (scopes : List String) (ttl now : Nat)
    (_hsub : subject ≠ "") (httl : 0 < ttl) :
    ∃ tok : SignedToken,
      generate_token (some k) subject scopes ttl now = .ok tok ∧
      validate_token k tok now = some tok.payload ∧
      tok.payload.sub = subject ∧
      tok.payload.iss = "notion-mcp-auth" ∧
      tok.payload.aud = "notion-mcp" ∧
      tok.payload.iat = now ∧
      tok.payload.exp = now + ttl ∧
      tok.payload.exp - tok.payload.iat = ttl ∧
      tok.payload.scope = (if scopes.isEmpty then none else some (joinScopes scopes)) := by
  refine ⟨_, rfl, ?_, rfl, rfl, rfl, rfl, rfl, by show now + ttl - now = ttl; omega, rfl⟩
  have h : ¬ now + ttl ≤ now := by omega
  simp [validate_token, jwt_decode, generate_token, h, Except.toOption]

/-- Witness for C1: the spec scenario `subject="test-user"`,
`scopes=["read","write"]`, `ttl=3600` verified immediately yields
`scope = "read write"` and `exp - iat = 3600`. -/
theorem issue_then_validate_roundtrip_witness :
    ("test-user" : String) ≠ "" ∧ 0 < 3600 ∧
    ∃ tok : SignedToken,
      generate_token (some 0) "test-user" ["read", "write"] 3600 1000 = .ok tok ∧
      validate_token 0 tok 1000 = some tok.payload ∧
      tok.payload.scope = some "read write" ∧
      tok.payload.exp - tok.payload.iat = 3600 := by
  refine ⟨by decide, by decide, ?_⟩
  obtain ⟨tok, h1, h2, _, _, _, _, _, hdiff, hscope⟩ :=
    issue_then_validate_roundtrip 0 "test-user" ["read", "write"] 3600 1000
      (by decide) (by decide)
  exact ⟨tok, h1, h2, by rw [hscope]; rfl, hdiff⟩

/-- C3: any token whose `exp` claim is at or before the current time is
rejected by `validate_token`, whatever its signature and other claims are. -/
theorem expired_token_rejected (pk : Nat) (token : SignedToken) (now : Nat)
    (hexp : token.payload.exp ≤ now) :
    validate_token pk token now = none := by
  by_cases hsig : token.sigKey = pk <;>
    simp [validate_token, jwt_decode, hsig, hexp, Except.toOption]

/-- Witness for C3: a token with a valid signature and the expected audience
but `exp = now` is rejected. -/
theorem expired_token_rejected_witness :
    (SignedToken.mk ⟨"u", "notion-mcp-auth", "notion-mcp", 0, 10, none⟩ 3).payload.exp ≤ 10 ∧
    validate_token 3 (SignedToken.mk ⟨"u", "notion-mcp-auth", "notion-mcp", 0, 10, none⟩ 3) 10 = none :=
  ⟨by decide, expired_token_rejected 3 _ 10 (by decide)⟩

/-- C4: any token whose `aud` claim differs from the fixed expected audience
`"notion-mcp"` is rejected by `validate_token`, even with a valid signature
and an unexpired `exp`. -/
theorem wrong_audience_rejected (pk : Nat) (token : SignedToken) (now : Nat)
    (haud : token.payload.aud ≠ "notion-mcp") :
    validate_token pk token now = none := by
  by_cases hsig : token.sigKey = pk
  · by_cases hexp : token.payload.exp ≤ now <;>
      simp [validate_token, jwt_decode, hsig, hexp, haud, Except.toOption]
  · simp [validate_token, jwt_decode, hsig, Except.toOption]

/-- Witness for C4: a correctly signed, unexpired token with audience
`"other-service"` is rejected. -/
theorem wrong_audience_rejected_witness :
    (SignedToken.mk ⟨"u", "notion-mcp-auth", "other-service", 0, 100, none⟩ 3).payload.aud ≠ "notion-mcp" ∧
    validate_token 3 (SignedToken.mk ⟨"u", "notion-mcp-auth", "other-service", 0, 100, none⟩ 3) 5 = none :=
  ⟨by decide, wrong_audience_rejected 3 _ 5 (by decide)⟩

/-- C5: a token with a valid signature, the expected audience and an
unexpired `exp` is accepted with its claims returned, for every value of the
`iss` claim — `validate_token` never consults an issuer allow-list. -/
theorem issuer_never_checked (pk : Nat) (token : SignedToken) (now : Nat)
    (hsig : token.sigKey = pk) (haud : token.payload.aud = "notion-mcp")
    (hexp : now < token.payload.exp) :
    validate_token pk token now = some token.payload :=
  validate_token_accepts pk token now hsig haud hexp

/-- Witness for C5: a token whose issuer is the arbitrary string
`"totally-unknown-issuer"` is accepted. -/
theorem issuer_never_checked_witness :
    (SignedToken.mk ⟨"u", "totally-unknown-issuer", "notion-mcp", 0, 10, none⟩ 3).sigKey = 3 ∧
    (SignedToken.mk ⟨"u", "totally-unknown-issuer", "notion-mcp", 0, 10, none⟩ 3).payload.aud = "notion-mcp" ∧
    5 < (SignedToken.mk ⟨"u", "totally-unknown-issuer", "notion-mcp", 0, 10, none⟩ 3).payload.exp ∧
    validate_token 3 (SignedToken.mk ⟨"u", "totally-unknown-issuer", "notion-mcp", 0, 10, none⟩ 3) 5 =
      some ⟨"u", "totally-unknown-issuer", "notion-mcp", 0, 10, none⟩ :=
  ⟨rfl, rfl, by decide, issuer_never_checked 3 _ 5 rfl rfl (by decide)⟩

/-- C6: startup fails with the configuration error when the public key is
absent (whatever the other variables hold); with the public key present and
the private key absent, startup succeeds with `rsa_private_key = none`, in
which state every call to `generate_token` fails with the configuration
error while token validation still accepts valid tokens. -/
theorem startup_key_requirements :
    (∀ priv notion, server_startup none priv notion =
        .error "RSA_PUBLIC_KEY environment variable is required for authentication") ∧
    (∀ pk notion_secret, server_startup (some pk) none (some notion_secret) =
        .ok ⟨pk, none, notion_secret⟩) ∧
    (∀ subject scopes ttl now, generate_token none subject scopes ttl now =
        .error "RSA_PRIVATE_KEY environment variable is required for token generation") ∧
    (∀ pk token now, token.sigKey = pk → token.payload.aud = "notion-mcp" →
        now < token.payload.exp → validate_token pk token now = some token.payload) :=
  ⟨fun _ _ => rfl, fun _ _ => rfl, fun _ _ _ _ => rfl,
    fun pk token now hsig haud hexp => validate_token_accepts pk token now hsig haud hexp⟩

/-- Witness for C6: concrete startup outcomes with and without each key, a
failing `generate_token` call, and a successful validation in the
verification-only state. -/
theorem startup_key_requirements_witness :
    server_startup none (some 5) (some "secret") =
      .error "RSA_PUBLIC_KEY environment variable is required for authentication" ∧
    server_startup (some 7) none (some "secret") = .ok ⟨7, none, "secret"⟩ ∧
    generate_token none "u" ["read"] 3600 0 =
      .error "RSA_PRIVATE_KEY environment variable is required for token generation" ∧
    validate_token 7 (SignedToken.mk ⟨"u", "notion-mcp-auth", "notion-mcp", 0, 10, none⟩ 7) 5 =
      some ⟨"u", "notion-mcp-auth", "notion-mcp", 0, 10, none⟩ := by
  obtain ⟨h1, h2, h3, h4⟩ := startup_key_requirements
  exact ⟨h1 (some 5) (some "secret"), h2 7 "secret", h3 "u" ["read"] 3600 0,
    h4 7 _ 5 rfl rfl (by decide)⟩

/-- C2 counterexample: the claim "each tool raises a distinct typed failure,
not a generic exception, carrying the tool's identifier argument" fails on
concrete inputs: `search_pages` raises the generic builtin `Exception` (and
its message carries no identifier), and `get_page` raises `NameError` for
the undefined global `NotionAPIError` — a message carrying neither a typed
failure kind nor the `page_id` argument. -/
theorem typed_failure_claim_counterexample :
    (search_pages "notes" (some 10) (.apiError "boom")).outcome =
      .error (.exc "Failed to search pages: boom") ∧
    PyExc.isGenericException (.exc "Failed to search pages: boom") = true ∧
    (get_page "abc-123" (.apiError "boom")).outcome =
      .error (.nameError "NotionAPIError") :=
  ⟨rfl, rfl, rfl⟩

/-- C2 (amended): when the remote-provider call raises an upstream API
error, `search_pages`, `get_database` and `query_database` raise the generic
builtin `Exception`; the messages of `get_database` and `query_database`
carry the identifier argument, while `search_pages`' message is the fixed
text plus the provider error only.  `get_page`'s handler evaluates the
undefined name `NotionAPIError` and therefore raises `NameError`, which is
not the generic `Exception` but carries no identifier either. -/
theorem upstream_errors_raise_generic_or_name_error
    (page_id db_id qdb_id q msg : String) (ps : Option Int) :
    (get_page page_id (.apiError msg)).outcome =
      .error (.nameError "NotionAPIError") ∧
    (search_pages q ps (.apiError msg)).outcome =
      .error (.exc ("Failed to search pages: " ++ msg)) ∧
    (get_database db_id (.apiError msg)).outcome =
      .error (.exc ("Failed to retrieve database " ++ db_id ++ ": " ++ msg)) ∧
    (query_database qdb_id ps (.apiError msg)).outcome =
      .error (.exc ("Failed to query database " ++ qdb_id ++ ": " ++ msg)) ∧
    PyExc.isGenericException (.exc ("Failed to search pages: " ++ msg)) = true ∧
    PyExc.isGenericException (.nameError "NotionAPIError") = false :=
  ⟨rfl, rfl, rfl, rfl, rfl, rfl⟩

/-- C7: for every integer-valued client-supplied `page_size`, the value
forwarded to the provider by `search_pages` and by `query_database` is at
most 100; values above 100 are clamped to exactly 100 and values of 100 or
below pass through unchanged. -/
theorem page_size_clamped (n : Int) (q db : String) (prov : ProviderOutcome) :
    (search_pages q (some n) prov).search_params.page_size ≤ 100 ∧
    (query_database db (some n) prov).query_page_size ≤ 100 ∧
    (100 < n →
      (search_pages q (some n) prov).search_params.page_size = 100 ∧
      (query_database db (some n) prov).query_page_size = 100) ∧
    (n ≤ 100 →
      (search_pages q (some n) prov).search_params.page_size = n ∧
      (query_database db (some n) prov).query_page_size = n) := by
  simp only [search_pages, query_database, convert_page_size]
  omega

/-- Witness for C7: the spec scenario `page_size=500` forwards exactly 100
for both tools. -/
theorem page_size_clamped_witness :
    (100 : Int) < 500 ∧
    (search_pages "all" (some 500) .ok).search_params.page_size = 100 ∧
    (query_database "db" (some 500) .ok).query_page_size = 100 :=
  ⟨by decide, ((page_size_clamped 500 "all" "db" .ok).2.2.1 (by decide)).1,
    ((page_size_clamped 500 "all" "db" .ok).2.2.1 (by decide)).2⟩

/-- C8: the identifier each of `get_page`, `get_database` and
`query_database` forwards to the provider is the input with every hyphen
character removed and the remaining characters unchanged in order (the
filtered character list); in particular `get_page("abc-123-def")` forwards
`"abc123def"` to both provider calls. -/
theorem identifier_hyphens_stripped (page_id db_id qdb_id : String)
    (ps : Option Int) (prov : ProviderOutcome) :
    (get_page page_id prov).retrieve_page_id =
      ⟨page_id.data.filter (fun c => c ≠ '-')⟩ ∧
    (get_page page_id prov).blocks_block_id =
      (get_page page_id prov).retrieve_page_id ∧
    (get_database db_id prov).retrieve_database_id =
      ⟨db_id.data.filter (fun c => c ≠ '-')⟩ ∧
    (query_database qdb_id ps prov).query_database_id =
      ⟨qdb_id.data.filter (fun c => c ≠ '-')⟩ ∧
    '-' ∉ ((get_page page_id prov).retrieve_page_id).data ∧
    (get_page "abc-123-def" prov).retrieve_page_id = "abc123def" := by
  refine ⟨rfl, rfl, rfl, rfl, ?_, rfl⟩
  simp [get_page, pyReplaceDash, List.mem_filter]

/-- C9: `search_pages` forwards the `query` parameter exactly when the
query argument is non-empty and not the literal `"all"`; otherwise no query
parameter is sent. -/
theorem search_query_param_iff (q : String) (ps : Option Int)
    (prov : ProviderOutcome) :
    ((search_pages q ps prov).search_params.query = some q ↔
      (q ≠ "" ∧ q ≠ "all")) ∧
    ((search_pages q ps prov).search_params.query = none ↔
      (q = "" ∨ q = "all")) := by
  simp only [search_pages]
  by_cases h : q ≠ "" ∧ q ≠ "all"
  · rw [if_pos h]
    refine ⟨⟨fun _ => h, fun _ => rfl⟩,
      ⟨fun hfalse => Option.noConfusion hfalse, fun hor => ?_⟩⟩
    rcases hor with h0 | h0
    · exact absurd h0 h.1
    · exact absurd h0 h.2
  · rw [if_neg h]
    rw [not_and_or, not_not, not_not] at h
    refine ⟨⟨fun hfalse => Option.noConfusion hfalse, fun hq => ?_⟩,
      ⟨fun _ => h, fun _ => rfl⟩⟩
    rcases h with h0 | h0
    · exact absurd h0 hq.1
    · exact absurd h0 hq.2

/-- C10: every `search_pages` invocation, whatever its arguments, sends the
provider the filter `{"property": "object", "value": "page"}` restricting
results to page objects. -/
theorem search_filter_fixed_to_page (q : String) (ps : Option Int)
    (prov : ProviderOutcome) :
    (search_pages q ps prov).search_params.filter_property = "object" ∧
    (search_pages q ps prov).search_params.filter_value = "page" :=
  ⟨rfl, rfl⟩

end NotionMCP
